import Mathlib

/-!
Verification of the MiniBase generic data-access engine.

The definitions below are a shallow embedding of the TypeScript source:
the statement builders and the protection policy come from src/lib/db.ts,
the authentication gate from src/lib/auth.ts, and the HTTP handlers from
the route modules under src/app/api.  JavaScript strings are embedded as
Lean strings; where a proof needs to reason about the JS string methods
trim, toUpperCase and startsWith, those methods are embedded explicitly
as functions on lists of characters.
-/

namespace MiniBase

/-- Scalar values bound into SQL statements (SQLite dynamic typing). -/
inductive Value where
  | intV (n : Int)
  | strV (s : String)
  | nullV
deriving DecidableEq

/-- A prepared statement: the SQL text together with the bound parameters,
mirroring a better-sqlite3 prepare-then-bind call. -/
structure Stmt where
  sql : String
  params : List Value
deriving DecidableEq

/-- Array.prototype.join with separator ", " as used by db.ts. -/
def joinComma (xs : List String) : String := String.intercalate ", " xs

/-- First character of the identifier allow-list: [A-Za-z_]. -/
def isIdentStart (c : Char) : Bool := c.isAlpha || c == '_'

/-- Later characters of the identifier allow-list: [A-Za-z0-9_]. -/
def isIdentChar (c : Char) : Bool := c.isAlpha || c.isDigit || c == '_'

/-- The allow-list regex from the create-table route
(stats/route.ts line 123): `[A-Za-z_][A-Za-z0-9_]*` anchored at both ends. -/
def isValidIdentifier (s : String) : Bool :=
  match s.toList with
  | [] => false
  | c :: cs => isIdentStart c && cs.all isIdentChar

/-- db.ts getAllFromTable: SELECT with the table name interpolated and
limit and offset bound as parameters. -/
def getAllFromTableStmt (tableName : String) (limit offset : Int) : Stmt :=
  { sql := "SELECT * FROM " ++ tableName ++ " LIMIT ? OFFSET ?"
    params := [Value.intV limit, Value.intV offset] }

/-- db.ts getTableRowCount. -/
def getTableRowCountStmt (tableName : String) : Stmt :=
  { sql := "SELECT COUNT(*) as count FROM " ++ tableName
    params := [] }

/-- db.ts insertIntoTable: the table name and the keys of the data object
are interpolated, every value becomes a ? placeholder. -/
def insertIntoTableStmt (tableName : String) (data : List (String × Value)) : Stmt :=
  { sql := "INSERT INTO " ++ tableName ++ " (" ++ joinComma (data.map Prod.fst) ++
      ") VALUES (" ++ joinComma (data.map (fun _ => "?")) ++ ") RETURNING *"
    params := data.map Prod.snd }

/-- db.ts updateInTable: SET clause built from the keys, every value and
the id bound as parameters. -/
def updateInTableStmt (tableName : String) (id : Int) (data : List (String × Value)) : Stmt :=
  { sql := "UPDATE " ++ tableName ++ " SET " ++
      joinComma (data.map (fun p => p.1 ++ " = ?")) ++ " WHERE id = ? RETURNING *"
    params := data.map Prod.snd ++ [Value.intV id] }

/-- db.ts deleteFromTable, the DELETE statement itself. -/
def deleteFromTableStmt (tableName : String) (id : Int) : Stmt :=
  { sql := "DELETE FROM " ++ tableName ++ " WHERE id = ?"
    params := [Value.intV id] }

/-- The get-by-id statement issued by the [tableName]/[id] GET route via
executeSQL. -/
def getByIdStmt (tableName : String) (id : Int) : Stmt :=
  { sql := "SELECT * FROM " ++ tableName ++ " WHERE id = ?"
    params := [Value.intV id] }

/-- A column definition as accepted by db.ts createTable. -/
structure ColumnDef where
  name : String
  declaredType : String
  constraints : Option String
deriving DecidableEq

/-- db.ts createTable column rendering; a missing or empty constraint
string contributes nothing (JS truthiness of the empty string). -/
def columnDefText (c : ColumnDef) : String :=
  c.name ++ " " ++ c.declaredType ++
    (match c.constraints with
     | some k => if k = "" then "" else " " ++ k
     | none => "")

/-- db.ts createTable. -/
def createTableStmt (tableName : String) (columns : List ColumnDef) : Stmt :=
  { sql := "CREATE TABLE " ++ tableName ++ " (" ++
      joinComma (columns.map columnDefText) ++ ")"
    params := [] }

/-- db.ts dropTable. -/
def dropTableStmt (tableName : String) : Stmt :=
  { sql := "DROP TABLE IF EXISTS " ++ tableName
    params := [] }

/-- db.ts getTableSchema introspection statement. -/
def tableInfoStmt (tableName : String) : Stmt :=
  { sql := "PRAGMA table_info(" ++ tableName ++ ")"
    params := [] }

/-- An HTTP response as produced by the route handlers: a status code and
the distinguishing body text. -/
structure RouteResp where
  status : Nat
  body : String
deriving DecidableEq

/-- The verified identity carried by a session token (auth.ts AdminSession,
restricted to the fields the handlers use). -/
structure Session where
  id : Int
  username : String
deriving DecidableEq

/-- Result of the authentication gate (auth.ts authenticateRequest). -/
inductive AuthResult where
  | ok (user : Session)
  | err (msg : String)
deriving DecidableEq

/-- JavaScript whitespace for trim and parseInt. -/
def isJsSpace (c : Char) : Bool := c == ' ' || c == '\t' || c == '\n' || c == '\r'

/-- Embedding of String.prototype.startsWith: the first argument is the
search string, the second the receiver. -/
def leadsWith : List Char → List Char → Bool
  | [], _ => true
  | _ :: _, [] => false
  | a :: as, b :: bs => a == b && leadsWith as bs

/-- Right half of String.prototype.trim: remove trailing whitespace. -/
def dropTrailingWs : List Char → List Char
  | [] => []
  | c :: cs =>
    match dropTrailingWs cs with
    | [] => if isJsSpace c then [] else [c]
    | d :: ds => c :: d :: ds

/-- Embedding of String.prototype.trim. -/
def trimChars (cs : List Char) : List Char :=
  dropTrailingWs (cs.dropWhile isJsSpace)

/-- Embedding of String.prototype.toUpperCase on ASCII text. -/
def upperChars (cs : List Char) : List Char := cs.map Char.toUpper

/-- The routing test of db.ts executeSQL:
sql.trim().toUpperCase().startsWith(SELECT). -/
def startsSelectChars (cs : List Char) : Bool :=
  leadsWith "SELECT".toList (upperChars (trimChars cs))

/-- How db.ts executeSQL runs a statement: .all() returns a result set,
.run() is the mutation path. -/
inductive ExecMode where
  | listMode
  | mutationMode
deriving DecidableEq

/-- db.ts executeSQL routing decision. -/
def executeSQLMode (sql : String) : ExecMode :=
  if startsSelectChars sql.toList then ExecMode.listMode else ExecMode.mutationMode

/-- Modelled from the spec: the shapes of administrator-issued SQL text
relevant to the rawQuery routing claim.  A read is a statement that
returns a result set without mutating; in SQLite a SELECT is a read, and
so is a SELECT carrying a leading WITH clause. -/
inductive RawStatement where
  | selectStmt (rest : String)
  | withSelectStmt (ctes : String) (rest : String)
  | insertStmt (rest : String)
  | updateStmt (rest : String)
  | deleteStmt (rest : String)
deriving DecidableEq

/-- The SQL text of a RawStatement, as an administrator would write it. -/
def renderStatement : RawStatement → String
  | RawStatement.selectStmt r => "SELECT " ++ r
  | RawStatement.withSelectStmt c r => "WITH " ++ c ++ " SELECT " ++ r
  | RawStatement.insertStmt r => "INSERT INTO " ++ r
  | RawStatement.updateStmt r => "UPDATE " ++ r
  | RawStatement.deleteStmt r => "DELETE FROM " ++ r

/-- Modelled from the spec: whether a statement is a read
(result-set-returning, non-mutating). -/
def statementIsRead : RawStatement → Bool
  | RawStatement.selectStmt _ => true
  | RawStatement.withSelectStmt _ _ => true
  | _ => false

/-- auth.ts extractTokenFromHeader: a missing header or a header without
the Bearer marker yields null; otherwise the text after the 7-character
marker is the token. -/
def extractTokenFromHeader (authHeader : Option String) : Option String :=
  match authHeader with
  | none => none
  | some h =>
    if leadsWith "Bearer ".toList h.toList then
      some (String.mk (h.toList.drop 7))
    else
      none

/-- auth.ts authenticateRequest over an abstract token verifier
(jwt.verify is an external library; verifyToken collapses any of its
failures to null).  An empty extracted token is falsy in JS and is treated
like a missing one. -/
def authenticateRequest (verify : String → Option Session)
    (authHeader : Option String) : AuthResult :=
  match extractTokenFromHeader authHeader with
  | none => AuthResult.err "No token provided"
  | some tok =>
    if tok == "" then AuthResult.err "No token provided"
    else
      match verify tok with
      | none => AuthResult.err "Invalid or expired token"
      | some u => AuthResult.ok u

/-- Modelled from the spec: what jwt.verify checks about a presented
token.  The spec states that validity is purely a function of signature
and expiry, so a token is summarised by its payload, whether its
signature matches the server secret, and whether it is expired. -/
structure TokenInfo where
  payload : Session
  sigValid : Bool
  expired : Bool
deriving DecidableEq

/-- Lookup of a presented token string in a finite token universe. -/
def tokenLookup (env : List (String × TokenInfo)) (tok : String) : Option TokenInfo :=
  (env.find? (fun p => p.1 == tok)).map Prod.snd

/-- Modelled from the spec: jwt.verify returns the payload exactly when
the signature is valid and the token is not expired; auth.ts verifyToken
turns any failure into null. -/
def jwtVerify (env : List (String × TokenInfo)) (tok : String) : Option Session :=
  match tokenLookup env tok with
  | none => none
  | some t => if t.sigValid && !t.expired then some t.payload else none

/-- auth.ts line 6: const JWT_SECRET = process.env.JWT_SECRET || default. -/
def defaultJwtSecret : String := "minibase-secret-key-change-in-production"

/-- Possible startup outcomes with respect to the signing secret. -/
inductive StartupOutcome where
  | started (secret : String)
  | fatal
deriving DecidableEq

/-- The initialisation of the signing secret from the environment
(auth.ts line 6); the JS || operator also replaces an empty string. -/
def initJwtSecret (env : Option String) : StartupOutcome :=
  StartupOutcome.started
    (match env with
     | none => defaultJwtSecret
     | some s => if s == "" then defaultJwtSecret else s)

/-- A record: an untyped mapping from column name to value, one row of a
table. -/
abbrev Row := List (String × Value)

/-- Value of a named column of a row (first matching entry). -/
def rowLookup (r : Row) (k : String) : Option Value :=
  (r.find? (fun p => p.1 == k)).map Prod.snd

/-- The identity column of a row. -/
def rowId (r : Row) : Option Value := rowLookup r "id"

/-- The username column of a row. -/
def rowUsername (r : Row) : Option Value := rowLookup r "username"

/-- The storage engine state: named tables holding rows, plus a fault
flag that makes the next destructive statement fail, modelling an
underlying storage error caught by the try/catch in db.ts. -/
structure DB where
  tables : List (String × List Row)
  storageFail : Bool
deriving DecidableEq

/-- Rows of a named table (a missing table has no rows). -/
def getTable (db : DB) (t : String) : List Row :=
  ((db.tables.find? (fun p => p.1 == t)).map Prod.snd).getD []

/-- Whether a table exists, the test behind getTableSchema returning a
schema rather than null. -/
def dbHasTable (db : DB) (t : String) : Bool :=
  (db.tables.find? (fun p => p.1 == t)).isSome

/-- Replace the rows of a named table. -/
def setTable (db : DB) (t : String) (rows : List Row) : DB :=
  { db with tables := db.tables.map (fun p => if p.1 == t then (t, rows) else p) }

/-- The row lookup SELECT id, username FROM admin_users WHERE id = ? of
deleteFromTable, generalised to any table. -/
def findRowById (rows : List Row) (id : Int) : Option Row :=
  rows.find? (fun r => rowId r == some (Value.intV id))

/-- Policy failures and storage failures thrown inside db.ts
deleteFromTable. -/
inductive EngineError where
  | protectedRecord
  | lastAdminProtected
  | storage
deriving DecidableEq

/-- The admin_users guard of db.ts deleteFromTable: look up the target
row; an existing row named admin is protected, otherwise a count of at
most one admin row blocks the deletion. -/
def adminDeleteGuard (db : DB) (id : Int) : Except EngineError Unit :=
  match findRowById (getTable db "admin_users") id with
  | some u =>
    if rowUsername u == some (Value.strV "admin") then
      Except.error EngineError.protectedRecord
    else if (getTable db "admin_users").length ≤ 1 then
      Except.error EngineError.lastAdminProtected
    else
      Except.ok ()
  | none => Except.ok ()

/-- Execution of the DELETE statement itself: it fails when the storage
engine faults, otherwise it removes every row with the given id and
reports whether any row was removed (result.changes > 0). -/
def deleteExec (db : DB) (t : String) (id : Int) : Except EngineError (DB × Bool) :=
  if db.storageFail then
    Except.error EngineError.storage
  else
    let rows := getTable db t
    let kept := rows.filter (fun r => !(rowId r == some (Value.intV id)))
    Except.ok (setTable db t kept, decide (kept.length < rows.length))

/-- The body of the try block of db.ts deleteFromTable: the admin guard
runs first, strictly before the DELETE statement. -/
def deleteInner (db : DB) (t : String) (id : Int) : Except EngineError (DB × Bool) :=
  if t == "admin_users" then
    match adminDeleteGuard db id with
    | Except.error e => Except.error e
    | Except.ok _ => deleteExec db t id
  else
    deleteExec db t id

/-- db.ts deleteFromTable: the catch clause turns every thrown error into
a false return with the state unchanged. -/
def deleteFromTable (db : DB) (t : String) (id : Int) : DB × Bool :=
  match deleteInner db t id with
  | Except.ok r => r
  | Except.error _ => (db, false)

/-- The DELETE handler of the [tableName]/[id] REST route: after
authentication and the table-existence check, a false return from
deleteFromTable becomes a 404 Record not found. -/
def deleteRecordRoute (auth : AuthResult) (db : DB) (t : String) (id : Int) :
    RouteResp × DB :=
  match auth with
  | AuthResult.err e => ({ status := 401, body := e }, db)
  | AuthResult.ok _ =>
    if dbHasTable db t then
      match deleteFromTable db t id with
      | (db2, true) => ({ status := 200, body := "Record deleted successfully" }, db2)
      | (db2, false) => ({ status := 404, body := "Record not found" }, db2)
    else
      ({ status := 404, body := "Table not found" }, db)

/-- The DELETE handler of the database tables route: reserved system
tables are rejected with 403 before db.dropTable is reached; the second
component is the DROP statement executed, none when no statement ran. -/
def dropTableRoute (auth : AuthResult) (tableName : String) :
    RouteResp × Option Stmt :=
  match auth with
  | AuthResult.err e => ({ status := 401, body := e }, none)
  | AuthResult.ok _ =>
    if tableName == "admin_users" || tableName == "app_users" then
      ({ status := 403, body := "Cannot delete system tables" }, none)
    else
      ({ status := 200,
         body := "Table \x27" ++ tableName ++ "\x27 deleted successfully" },
       some (dropTableStmt tableName))

/-- The POST handler of the database tables route: the only place in the
engine where a dynamically interpolated name is validated.  The createOk
argument models whether the storage engine accepts the CREATE TABLE
statement: db.createTable catches an exec failure and returns false,
which the route maps to 500 Failed to create table.  The second
component is the CREATE TABLE statement submitted to the engine, none
when no statement was built. -/
def createTableRoute (auth : AuthResult) (tableName : String)
    (columns : List ColumnDef) (createOk : Bool) : RouteResp × Option Stmt :=
  match auth with
  | AuthResult.err e => ({ status := 401, body := e }, none)
  | AuthResult.ok _ =>
    if tableName == "" then
      ({ status := 400, body := "Table name and columns are required" }, none)
    else if !(isValidIdentifier tableName) then
      ({ status := 400,
         body := "Invalid table name. Use only letters, numbers, and underscores." },
       none)
    else if createOk then
      ({ status := 200,
         body := "Table \x27" ++ tableName ++ "\x27 created successfully" },
       some (createTableStmt tableName columns))
    else
      ({ status := 500, body := "Failed to create table" },
       some (createTableStmt tableName columns))

/-- The rest-destructuring const left-brace id, ...rest right-brace = data
of the POST and PUT REST handlers: the id field is removed. -/
def stripId (data : List (String × Value)) : List (String × Value) :=
  data.filter (fun p => !(p.1 == "id"))

/-- The field set the POST handler passes to insertIntoTable. -/
def postInsertFields (data : List (String × Value)) : List (String × Value) :=
  stripId data

/-- The INSERT statement built by the POST handler. -/
def postInsertStmt (t : String) (data : List (String × Value)) : Stmt :=
  insertIntoTableStmt t (postInsertFields data)

/-- The field set the PUT handler passes to updateInTable. -/
def putUpdateFields (data : List (String × Value)) : List (String × Value) :=
  stripId data

/-- SQL column assignment: SET k = v overwrites the entries of column k. -/
def setField (r : Row) (k : String) (v : Value) : Row :=
  r.map (fun p => if p.1 == k then (k, v) else p)

/-- Apply a SET clause to one row, column by column. -/
def applyUpdateFields (r : Row) (data : List (String × Value)) : Row :=
  data.foldl (fun acc p => setField acc p.1 p.2) r

/-- Semantics of UPDATE t SET ... WHERE id = ? RETURNING *: every row
whose id matches is updated, and the updated version of the first
matching row is returned. -/
def updateInTableRun (rows : List Row) (id : Int) (data : List (String × Value)) :
    List Row × Option Row :=
  (rows.map (fun r =>
      if rowId r == some (Value.intV id) then applyUpdateFields r data else r),
   (rows.find? (fun r => rowId r == some (Value.intV id))).map
      (fun r => applyUpdateFields r data))

/-- The update performed by the PUT handler: the id field is stripped
before the SET clause is built. -/
def putUpdateRun (rows : List Row) (id : Int) (data : List (String × Value)) :
    List Row × Option Row :=
  updateInTableRun rows id (putUpdateFields data)

/-- JavaScript || with a string default: null and the empty string are
falsy. -/
def jsOr (v : Option String) (d : String) : String :=
  match v with
  | none => d
  | some s => if s == "" then d else s

/-- Value of a maximal run of leading decimal digits; none when there is
no digit, mirroring a NaN result of parseInt. -/
def digitsVal (cs : List Char) : Option Nat :=
  let ds := cs.takeWhile Char.isDigit
  if ds.isEmpty then none
  else some (ds.foldl (fun a c => a * 10 + (c.toNat - 48)) 0)

/-- Embedding of JS parseInt on base-10 input: leading whitespace is
skipped, an optional sign is read, then leading digits. -/
def parseIntJS (s : String) : Option Int :=
  match s.toList.dropWhile isJsSpace with
  | '-' :: rest => (digitsVal rest).map (fun n => -(n : Int))
  | '+' :: rest => (digitsVal rest).map (fun n => (n : Int))
  | cs => (digitsVal cs).map (fun n => (n : Int))

/-- The limit read by the list handler:
parseInt(searchParams.get(limit) || 100). -/
def listRouteLimit (q : Option String) : Option Int :=
  parseIntJS (jsOr q "100")

/-- The offset read by the list handler:
parseInt(searchParams.get(offset) || 0). -/
def listRouteOffset (q : Option String) : Option Int :=
  parseIntJS (jsOr q "0")

/-- The pagination metadata of a list response. -/
structure Pagination where
  limit : Int
  offset : Int
  total : Int
  hasMore : Bool
deriving DecidableEq

/-- The pagination object built by the list handler, with
hasMore = offset + limit < total. -/
def mkPagination (limit offset total : Int) : Pagination :=
  { limit := limit, offset := offset, total := total
    hasMore := decide (offset + limit < total) }

/-- A sample verified identity, for concrete instantiations. -/
def sessionEx : Session := { id := 1, username := "admin" }

/-- A token universe holding one well-formed but expired token and one
well-formed but signature-tampered token. -/
def tokenEnvEx : List (String × TokenInfo) :=
  [("expiredTok", { payload := sessionEx, sigValid := true, expired := true }),
   ("tamperedTok", { payload := sessionEx, sigValid := false, expired := false })]

/-- The bootstrap administrator row. -/
def adminRowEx : Row := [("id", Value.intV 1), ("username", Value.strV "admin")]

/-- A second administrator row. -/
def otherAdminRowEx : Row := [("id", Value.intV 2), ("username", Value.strV "alice")]

/-- A database whose admin_users table holds only the bootstrap
administrator. -/
def adminOnlyDB : DB :=
  { tables := [("admin_users", [adminRowEx])], storageFail := false }

/-- A database with two administrators. -/
def twoAdminDB : DB :=
  { tables := [("admin_users", [adminRowEx, otherAdminRowEx])], storageFail := false }

/-- Claim C2: a delete from admin_users first looks up the target row;
an existing row whose username is the reserved bootstrap name fails with
ProtectedRecord, and otherwise a deletion that would empty the table
fails with LastAdminProtected; the username check takes precedence, both
checks precede the DELETE statement, and on a policy failure the state is
unchanged and the operation reports failure. -/
theorem admin_delete_protection (db : DB) (id : Int) (u : Row)
    (hfind : findRowById (getTable db "admin_users") id = some u) :
    (rowUsername u = some (Value.strV "admin") →
        deleteInner db "admin_users" id = Except.error EngineError.protectedRecord ∧
        deleteFromTable db "admin_users" id = (db, false)) ∧
    (rowUsername u ≠ some (Value.strV "admin") →
        (getTable db "admin_users").length ≤ 1 →
        deleteInner db "admin_users" id = Except.error EngineError.lastAdminProtected ∧
        deleteFromTable db "admin_users" id = (db, false)) := by
  constructor
  · intro h
    have hinner : deleteInner db "admin_users" id =
        Except.error EngineError.protectedRecord := by
      simp [deleteInner, adminDeleteGuard, hfind, h]
    exact ⟨hinner, by simp [deleteFromTable, hinner]⟩
  · intro h hcount
    have hne : (rowUsername u == some (Value.strV "admin")) = false :=
      beq_eq_false_iff_ne.mpr h
    have hinner : deleteInner db "admin_users" id =
        Except.error EngineError.lastAdminProtected := by
      simp [deleteInner, adminDeleteGuard, hfind, hne, hcount]
    exact ⟨hinner, by simp [deleteFromTable, hinner]⟩

/-- Witness for C2 at a one-row admin table holding the bootstrap
administrator. -/
theorem admin_delete_protection_witness :
    deleteInner adminOnlyDB "admin_users" 1 = Except.error EngineError.protectedRecord ∧
    deleteFromTable adminOnlyDB "admin_users" 1 = (adminOnlyDB, false) :=
  (admin_delete_protection adminOnlyDB 1 adminRowEx (by decide)).1 (by decide)

/-- Claim C4, counterexample: the four authentication failure modes do
not all produce the same error; a missing header and a malformed header
produce No token provided, while an expired token and a tampered token
produce Invalid or expired token, and the two are distinguishable. -/
theorem auth_gate_uniform_error_counterexample :
    authenticateRequest (jwtVerify tokenEnvEx) none =
      AuthResult.err "No token provided" ∧
    authenticateRequest (jwtVerify tokenEnvEx) (some "Token abc") =
      AuthResult.err "No token provided" ∧
    authenticateRequest (jwtVerify tokenEnvEx) (some "Bearer expiredTok") =
      AuthResult.err "Invalid or expired token" ∧
    authenticateRequest (jwtVerify tokenEnvEx) (some "Bearer tamperedTok") =
      AuthResult.err "Invalid or expired token" ∧
    AuthResult.err "No token provided" ≠ AuthResult.err "Invalid or expired token" :=
  ⟨by decide, by decide, by decide, by decide, by decide⟩

/-- Claim C4, amended: the gate collapses failures into exactly two
indistinguishable classes; a missing header and a malformed header share
the error No token provided, an expired token and a signature-tampered
token share the error Invalid or expired token, and the two classes carry
different messages. -/
theorem auth_gate_two_error_classes (verify : String → Option Session)
    (hd tok : String) (env : List (String × TokenInfo)) :
    authenticateRequest verify none = AuthResult.err "No token provided" ∧
    (extractTokenFromHeader (some hd) = none →
        authenticateRequest verify (some hd) = AuthResult.err "No token provided") ∧
    (extractTokenFromHeader (some hd) = some tok → tok ≠ "" → verify tok = none →
        authenticateRequest verify (some hd) =
          AuthResult.err "Invalid or expired token") ∧
    (∀ ti : TokenInfo, tokenLookup env tok = some ti →
        (ti.expired = true ∨ ti.sigValid = false) → jwtVerify env tok = none) ∧
    ("No token provided" : String) ≠ "Invalid or expired token" := by
  refine ⟨rfl, ?_, ?_, ?_, by decide⟩
  · intro h
    simp [authenticateRequest, h]
  · intro h hne hv
    have hne2 : (tok == "") = false := beq_eq_false_iff_ne.mpr hne
    simp [authenticateRequest, h, hne2, hv]
  · intro ti hti hcase
    cases hcase with
    | inl hexp => simp [jwtVerify, hti, hexp]
    | inr hsig => simp [jwtVerify, hti, hsig]

/-- Witness for the amended C4 at a concrete expired token. -/
theorem auth_gate_two_error_classes_witness :
    authenticateRequest (jwtVerify tokenEnvEx) (some "Bearer expiredTok") =
      AuthResult.err "Invalid or expired token" :=
  (auth_gate_two_error_classes (jwtVerify tokenEnvEx) "Bearer expiredTok"
      "expiredTok" tokenEnvEx).2.2.1 (by decide) (by decide) (by decide)

/-- Claim C5, counterexample: with the signing secret absent from the
environment, startup succeeds with the hard-coded default secret instead
of failing fatally. -/
theorem jwt_secret_silent_fallback_counterexample :
    initJwtSecret none = StartupOutcome.started defaultJwtSecret ∧
    initJwtSecret none ≠ StartupOutcome.fatal :=
  ⟨rfl, by decide⟩

/-- Claim C5, amended: startup never fails over the signing secret; an
absent or empty environment value silently falls back to the hard-coded
default minibase-secret-key-change-in-production. -/
theorem jwt_secret_fallback_amended :
    (∀ env : Option String, initJwtSecret env ≠ StartupOutcome.fatal) ∧
    initJwtSecret none = StartupOutcome.started defaultJwtSecret ∧
    initJwtSecret (some "") = StartupOutcome.started defaultJwtSecret := by
  refine ⟨?_, rfl, by decide⟩
  intro env
  cases env <;> simp [initJwtSecret]

/-- Claim C6: a drop-table request naming one of the two reserved system
tables is rejected with 403 Cannot delete system tables and no DROP
statement executes; an unauthenticated request does not reach a DROP
statement either. -/
theorem reserved_table_drop_rejected (u : Session) (e : String) (t : String)
    (hres : t = "admin_users" ∨ t = "app_users") :
    dropTableRoute (AuthResult.ok u) t =
      ({ status := 403, body := "Cannot delete system tables" }, none) ∧
    (dropTableRoute (AuthResult.err e) t).2 = none := by
  constructor
  · cases hres with
    | inl h => subst h; simp [dropTableRoute]
    | inr h => subst h; simp [dropTableRoute]
  · simp [dropTableRoute]

/-- Witness for C6 at the administrative-account table. -/
theorem reserved_table_drop_rejected_witness :
    dropTableRoute (AuthResult.ok sessionEx) "admin_users" =
      ({ status := 403, body := "Cannot delete system tables" }, none) :=
  (reserved_table_drop_rejected sessionEx "x" "admin_users" (Or.inl rfl)).1

/-- Claim C9: an omitted limit defaults to 100 and an omitted offset to
0, and the pagination metadata satisfies hasMore = offset + limit <
total; at total 25 and limit 10, offset 20 gives hasMore false and
offset 10 gives hasMore true. -/
theorem pagination_defaults_and_hasMore :
    listRouteLimit none = some 100 ∧
    listRouteOffset none = some 0 ∧
    (∀ limit offset total : Int,
        (mkPagination limit offset total).hasMore = decide (offset + limit < total)) ∧
    (mkPagination 10 20 25).hasMore = false ∧
    (mkPagination 10 10 25).hasMore = true :=
  ⟨by decide, by decide, fun _ _ _ => rfl, by decide, by decide⟩

/-- Claim C10: at the record delete endpoint a policy violation, an
underlying storage failure and a nonexistent id are indistinguishable:
each yields the same 404 Record not found response. -/
theorem delete_endpoint_collapses_failures (db : DB) (t : String) (id : Int)
    (u : Session) (htab : dbHasTable db t = true) :
    (∀ e : EngineError, deleteInner db t id = Except.error e →
        (deleteRecordRoute (AuthResult.ok u) db t id).1 =
          { status := 404, body := "Record not found" }) ∧
    (db.storageFail = true →
        (deleteRecordRoute (AuthResult.ok u) db t id).1 =
          { status := 404, body := "Record not found" }) ∧
    (db.storageFail = false → findRowById (getTable db t) id = none →
        (deleteRecordRoute (AuthResult.ok u) db t id).1 =
          { status := 404, body := "Record not found" }) := by
  have hbase : ∀ e : EngineError, deleteInner db t id = Except.error e →
      (deleteRecordRoute (AuthResult.ok u) db t id).1 =
        { status := 404, body := "Record not found" } := by
    intro e he
    simp [deleteRecordRoute, htab, deleteFromTable, he]
  refine ⟨hbase, ?_, ?_⟩
  · intro hs
    cases ht : t == "admin_users" with
    | true =>
      cases hg : adminDeleteGuard db id with
      | error e => exact hbase e (by simp [deleteInner, ht, hg])
      | ok _ =>
        exact hbase EngineError.storage (by simp [deleteInner, ht, hg, deleteExec, hs])
    | false =>
      exact hbase EngineError.storage (by simp [deleteInner, ht, deleteExec, hs])
  · intro hs hnone
    have hfilt : (getTable db t).filter
        (fun r => !(rowId r == some (Value.intV id))) = getTable db t := by
      rw [List.filter_eq_self]
      intro a ha
      have h2 := List.find?_eq_none.mp hnone a ha
      simpa using h2
    have hexec : deleteExec db t id =
        Except.ok (setTable db t (getTable db t), false) := by
      simp [deleteExec, hs, hfilt]
    have hinner : deleteInner db t id =
        Except.ok (setTable db t (getTable db t), false) := by
      cases ht : t == "admin_users" with
      | true =>
        have heq : t = "admin_users" := by simpa using ht
        subst heq
        have hguard : adminDeleteGuard db id = Except.ok () := by
          simp [adminDeleteGuard, hnone]
        simp [deleteInner, hguard, hexec]
      | false =>
        simp [deleteInner, ht, hexec]
    simp [deleteRecordRoute, htab, deleteFromTable, hinner]

/-- Witness for C10 at a protected bootstrap administrator. -/
theorem delete_endpoint_collapses_failures_witness :
    (deleteRecordRoute (AuthResult.ok sessionEx) adminOnlyDB "admin_users" 1).1 =
      { status := 404, body := "Record not found" } :=
  (delete_endpoint_collapses_failures adminOnlyDB "admin_users" 1 sessionEx
      (by decide)).1 EngineError.protectedRecord rfl

/-- Mapping a key-only function over two field lists with equal keys
gives equal results. -/
theorem map_fst_fun {α : Type} (f : String → α) (d1 d2 : List (String × Value))
    (h : d1.map Prod.fst = d2.map Prod.fst) :
    d1.map (fun p => f p.1) = d2.map (fun p => f p.1) := by
  have h2 := congrArg (List.map f) h
  simpa [List.map_map, Function.comp] using h2

/-- Claim C3: the SQL text of every generic CRUD statement is a function
of the table name and the field keys alone, never of the caller-supplied
values, and every value is passed in the bound-parameter list. -/
theorem crud_values_always_bound (t : String) (id lim off : Int)
    (data data2 : List (String × Value))
    (hkeys : data.map Prod.fst = data2.map Prod.fst) :
    (insertIntoTableStmt t data).sql = (insertIntoTableStmt t data2).sql ∧
    (insertIntoTableStmt t data).params = data.map Prod.snd ∧
    (updateInTableStmt t id data).sql = (updateInTableStmt t id data2).sql ∧
    (updateInTableStmt t id data).params = data.map Prod.snd ++ [Value.intV id] ∧
    (getAllFromTableStmt t lim off).params = [Value.intV lim, Value.intV off] ∧
    (deleteFromTableStmt t id).params = [Value.intV id] ∧
    (getByIdStmt t id).params = [Value.intV id] := by
  have hq : data.map (fun _ => "?") = data2.map (fun _ => "?") :=
    map_fst_fun (fun _ => "?") data data2 hkeys
  have hset : data.map (fun p => p.1 ++ " = ?") = data2.map (fun p => p.1 ++ " = ?") :=
    map_fst_fun (fun k => k ++ " = ?") data data2 hkeys
  refine ⟨?_, rfl, ?_, rfl, rfl, rfl, rfl⟩
  · simp [insertIntoTableStmt, hkeys, hq]
  · simp [updateInTableStmt, hset]

/-- Witness for C3: two inserts with equal keys but different values
produce the same SQL text. -/
theorem crud_values_always_bound_witness :
    (insertIntoTableStmt "users" [("a", Value.intV 1)]).sql =
      (insertIntoTableStmt "users" [("a", Value.strV "x")]).sql :=
  (crud_values_always_bound "users" 0 0 0 [("a", Value.intV 1)]
      [("a", Value.strV "x")] rfl).1

/-- Looking up a key in a row decomposes over the head entry. -/
theorem rowLookup_cons (q : String × Value) (qs : Row) (k : String) :
    rowLookup (q :: qs) k = if q.1 == k then some q.2 else rowLookup qs k := by
  cases h : q.1 == k <;> simp [rowLookup, List.find?_cons, h]

/-- A SET assignment to a column other than id leaves the id column of a
row unchanged. -/
theorem rowId_setField (r : Row) (k : String) (v : Value) (h : k ≠ "id") :
    rowId (setField r k v) = rowId r := by
  induction r with
  | nil => rfl
  | cons p ps ih =>
    have hknid : (k == "id") = false := beq_eq_false_iff_ne.mpr h
    cases hpk : p.1 == k with
    | true =>
      have hpk2 : p.1 = k := by simpa using hpk
      have hpnid : (p.1 == "id") = false := by rw [hpk2]; exact hknid
      have hs : setField (p :: ps) k v = (k, v) :: setField ps k v := by
        simp only [setField, List.map_cons]
        rw [if_pos hpk]
      show rowLookup (setField (p :: ps) k v) "id" = rowLookup (p :: ps) "id"
      rw [hs, rowLookup_cons, rowLookup_cons]
      simp [hknid, hpnid]
      exact ih
    | false =>
      have hs : setField (p :: ps) k v = p :: setField ps k v := by
        simp only [setField, List.map_cons]
        rw [if_neg (by simp [hpk])]
      show rowLookup (setField (p :: ps) k v) "id" = rowLookup (p :: ps) "id"
      rw [hs, rowLookup_cons, rowLookup_cons]
      cases hpid : p.1 == "id" <;> simp [hpid]
      exact ih

/-- A SET clause whose keys avoid id leaves the id column of a row
unchanged. -/
theorem rowId_applyUpdateFields (data : List (String × Value)) :
    ∀ r : Row, (∀ p ∈ data, p.1 ≠ "id") →
      rowId (applyUpdateFields r data) = rowId r := by
  induction data with
  | nil => intro r _; rfl
  | cons d ds ih =>
    intro r h
    have h1 : d.1 ≠ "id" := h d (List.mem_cons_self d ds)
    have h2 : ∀ p ∈ ds, p.1 ≠ "id" := fun p hp => h p (List.mem_cons_of_mem d hp)
    have hstep : applyUpdateFields r (d :: ds) =
        applyUpdateFields (setField r d.1 d.2) ds := rfl
    rw [hstep, ih (setField r d.1 d.2) h2, rowId_setField r d.1 d.2 h1]

/-- No surviving field of a stripped field set is named id. -/
theorem stripId_keys (data : List (String × Value)) :
    ∀ p ∈ stripId data, p.1 ≠ "id" := by
  intro p hp
  have h1 := List.of_mem_filter hp
  have h2 : (p.1 == "id") = false := by simpa using h1
  exact beq_eq_false_iff_ne.mp h2

/-- Claim C7: the POST handler strips any caller-supplied id before the
INSERT is built, the PUT handler strips any id before the SET clause is
built, the update leaves the id of every row unchanged, and the record
returned by an update carries exactly the id the update was addressed
to. -/
theorem id_stripped_and_identity_preserved (t : String)
    (data : List (String × Value)) (rows : List Row) (id : Int) :
    ("id" ∉ (postInsertFields data).map Prod.fst) ∧
    postInsertStmt t data = insertIntoTableStmt t (stripId data) ∧
    ("id" ∉ (putUpdateFields data).map Prod.fst) ∧
    (putUpdateRun rows id data).1.map rowId = rows.map rowId ∧
    (∀ r : Row, (putUpdateRun rows id data).2 = some r →
        rowId r = some (Value.intV id)) := by
  have hnotin : "id" ∉ (stripId data).map Prod.fst := by
    intro hmem
    obtain ⟨p, hp, hfst⟩ := List.mem_map.mp hmem
    exact stripId_keys data p hp hfst
  refine ⟨hnotin, rfl, hnotin, ?_, ?_⟩
  · show (rows.map fun r =>
        if rowId r == some (Value.intV id) then
          applyUpdateFields r (putUpdateFields data) else r).map rowId = rows.map rowId
    rw [List.map_map]
    apply List.map_congr_left
    intro r _
    cases hc : rowId r == some (Value.intV id) with
    | true =>
      simp only [Function.comp, hc, if_true]
      exact rowId_applyUpdateFields (putUpdateFields data) r (stripId_keys data)
    | false =>
      simp [Function.comp, hc]
  · intro r hr
    obtain ⟨r0, hf, happ⟩ := Option.map_eq_some'.mp hr
    have hpred := List.find?_some hf
    have hid : rowId r0 = some (Value.intV id) := by simpa using hpred
    rw [← happ,
      rowId_applyUpdateFields (putUpdateFields data) r0 (stripId_keys data), hid]

/-- Witness for C7: updating the bootstrap administrator with a payload
that tries to overwrite id returns a record that keeps id 1. -/
theorem id_stripped_and_identity_preserved_witness :
    rowId [("id", Value.intV 1), ("username", Value.strV "x")] =
      some (Value.intV 1) :=
  (id_stripped_and_identity_preserved "users"
      [("id", Value.intV 99), ("username", Value.strV "x")] [adminRowEx] 1).2.2.2.2
    [("id", Value.intV 1), ("username", Value.strV "x")] (by decide)

/-- Claim C1, counterexample: a name failing the allow-list pattern is
not rejected by the drop-table operation; the request succeeds and the
malformed name is interpolated into the executed DROP statement. -/
theorem identifier_validation_counterexample :
    isValidIdentifier "users; DROP TABLE admin_users" = false ∧
    (dropTableRoute (AuthResult.ok sessionEx)
        "users; DROP TABLE admin_users").1.status = 200 ∧
    (dropTableRoute (AuthResult.ok sessionEx) "users; DROP TABLE admin_users").2 =
      some { sql := "DROP TABLE IF EXISTS users; DROP TABLE admin_users"
             params := [] } :=
  ⟨by decide, by decide, by decide⟩

/-- Claim C1, amended: only the create-table endpoint checks the
candidate name against the allow-list, rejecting a non-matching name
before any SQL is built; a valid name reaches the CREATE TABLE statement
whether or not the storage engine then accepts it (200 on success, 500
on failure); and every other operation (list, row count, getById,
insert, update, delete, dropTable, schema introspection) interpolates
the raw table or column name into its SQL text with no validation. -/
theorem identifier_validation_amended (u : Session) (t : String)
    (cols : List ColumnDef) (data : List (String × Value))
    (lim off id : Int) (createOk : Bool) :
    createTableRoute (AuthResult.ok u) "" cols createOk =
      ({ status := 400, body := "Table name and columns are required" }, none) ∧
    (t ≠ "" → isValidIdentifier t = false →
        createTableRoute (AuthResult.ok u) t cols createOk =
          ({ status := 400,
             body := "Invalid table name. Use only letters, numbers, and underscores." },
           none)) ∧
    (isValidIdentifier t = true →
        createTableRoute (AuthResult.ok u) t cols true =
          ({ status := 200, body := "Table \x27" ++ t ++ "\x27 created successfully" },
           some (createTableStmt t cols)) ∧
        createTableRoute (AuthResult.ok u) t cols false =
          ({ status := 500, body := "Failed to create table" },
           some (createTableStmt t cols))) ∧
    (getAllFromTableStmt t lim off).sql = "SELECT * FROM " ++ t ++ " LIMIT ? OFFSET ?" ∧
    (getTableRowCountStmt t).sql = "SELECT COUNT(*) as count FROM " ++ t ∧
    (getByIdStmt t id).sql = "SELECT * FROM " ++ t ++ " WHERE id = ?" ∧
    (insertIntoTableStmt t data).sql = "INSERT INTO " ++ t ++ " (" ++
        joinComma (data.map Prod.fst) ++ ") VALUES (" ++
        joinComma (data.map (fun _ => "?")) ++ ") RETURNING *" ∧
    (updateInTableStmt t id data).sql = "UPDATE " ++ t ++ " SET " ++
        joinComma (data.map (fun p => p.1 ++ " = ?")) ++ " WHERE id = ? RETURNING *" ∧
    (deleteFromTableStmt t id).sql = "DELETE FROM " ++ t ++ " WHERE id = ?" ∧
    (dropTableStmt t).sql = "DROP TABLE IF EXISTS " ++ t ∧
    (tableInfoStmt t).sql = "PRAGMA table_info(" ++ t ++ ")" := by
  refine ⟨by simp [createTableRoute], ?_, ?_, rfl, rfl, rfl, rfl, rfl, rfl, rfl, rfl⟩
  · intro hne hval
    have hne2 : (t == "") = false := beq_eq_false_iff_ne.mpr hne
    simp [createTableRoute, hne2, hval]
  · intro hval
    have hne : t ≠ "" := by
      intro h
      subst h
      exact absurd hval (by decide)
    have hne2 : (t == "") = false := beq_eq_false_iff_ne.mpr hne
    exact ⟨by simp [createTableRoute, hne2, hval],
      by simp [createTableRoute, hne2, hval]⟩

/-- Witness for the amended C1: the create-table endpoint rejects a
malformed name with 400 and runs no statement. -/
theorem identifier_validation_amended_witness :
    createTableRoute (AuthResult.ok sessionEx) "users;x" [] true =
      ({ status := 400,
         body := "Invalid table name. Use only letters, numbers, and underscores." },
       none) :=
  (identifier_validation_amended sessionEx "users;x" [] [] 0 0 0 true).2.1
    (by decide) (by decide)

theorem toList_append (a b : String) : (a ++ b).toList = a.toList ++ b.toList := rfl

theorem leadsWith_append (p x : List Char) : leadsWith p (p ++ x) = true := by
  induction p with
  | nil => rfl
  | cons a as ih => simp [leadsWith, ih]

theorem dropTrailingWs_append_of_nil (l m : List Char) (h : dropTrailingWs m = []) :
    dropTrailingWs (l ++ m) = dropTrailingWs l := by
  induction l with
  | nil => simpa using h
  | cons c cs ih =>
    show (match dropTrailingWs (cs ++ m) with
          | [] => if isJsSpace c then [] else [c]
          | d :: ds => c :: d :: ds) =
        (match dropTrailingWs cs with
          | [] => if isJsSpace c then [] else [c]
          | d :: ds => c :: d :: ds)
    rw [ih]

theorem dropTrailingWs_append_of_ne (l m : List Char) (h : dropTrailingWs m ≠ []) :
    dropTrailingWs (l ++ m) = l ++ dropTrailingWs m := by
  induction l with
  | nil => rfl
  | cons c cs ih =>
    show (match dropTrailingWs (cs ++ m) with
          | [] => if isJsSpace c then [] else [c]
          | d :: ds => c :: d :: ds) = c :: (cs ++ dropTrailingWs m)
    rw [ih]
    cases h2 : cs ++ dropTrailingWs m with
    | nil => exact absurd (List.append_eq_nil.mp h2).2 h
    | cons d ds => rfl

theorem startsSelectChars_cons_ne (c : Char) (rest : List Char)
    (h1 : isJsSpace c = false) (h2 : ('S' == c.toUpper) = false) :
    startsSelectChars (c :: rest) = false := by
  unfold startsSelectChars trimChars
  rw [List.dropWhile_cons, if_neg (by simp [h1])]
  rw [show (c :: rest : List Char) = [c] ++ rest from rfl]
  cases h : dropTrailingWs rest with
  | nil =>
    rw [dropTrailingWs_append_of_nil _ _ h]
    rw [show dropTrailingWs [c] = [c] from by simp [dropTrailingWs, h1]]
    rw [show ("SELECT".toList : List Char) = 'S' :: "ELECT".toList from rfl]
    simp [upperChars, leadsWith, h2]
  | cons d ds =>
    rw [dropTrailingWs_append_of_ne _ _ (by simp [h]), h]
    rw [show ("SELECT".toList : List Char) = 'S' :: "ELECT".toList from rfl]
    simp [upperChars, leadsWith, h2]

theorem startsSelectChars_select (r : List Char) :
    startsSelectChars ("SELECT ".toList ++ r) = true := by
  unfold startsSelectChars trimChars
  rw [show "SELECT ".toList ++ r = ['S','E','L','E','C','T'] ++ (' ' :: r) from rfl]
  rw [show (['S','E','L','E','C','T'] ++ (' ' :: r) : List Char) =
      'S' :: (['E','L','E','C','T'] ++ (' ' :: r)) from rfl]
  rw [List.dropWhile_cons, if_neg (by decide)]
  rw [show ('S' :: (['E','L','E','C','T'] ++ (' ' :: r)) : List Char) =
      ['S','E','L','E','C','T'] ++ (' ' :: r) from rfl]
  cases h : dropTrailingWs (' ' :: r) with
  | nil =>
    rw [dropTrailingWs_append_of_nil _ _ h]
    decide
  | cons d ds =>
    rw [dropTrailingWs_append_of_ne _ _ (by simp [h]), h]
    rw [show upperChars (['S','E','L','E','C','T'] ++ (d :: ds)) =
        upperChars ['S','E','L','E','C','T'] ++ upperChars (d :: ds) from
      List.map_append _ _ _]
    rw [show upperChars ['S','E','L','E','C','T'] = ['S','E','L','E','C','T'] from rfl]
    rw [show ("SELECT".toList : List Char) = ['S','E','L','E','C','T'] from rfl]
    exact leadsWith_append _ _

theorem executeSQLMode_selectStmt (r : String) :
    executeSQLMode (renderStatement (RawStatement.selectStmt r)) = ExecMode.listMode := by
  unfold executeSQLMode renderStatement
  rw [show ("SELECT " ++ r).toList = "SELECT ".toList ++ r.toList from rfl]
  rw [startsSelectChars_select]
  rfl

theorem executeSQLMode_withSelectStmt (c r : String) :
    executeSQLMode (renderStatement (RawStatement.withSelectStmt c r)) =
      ExecMode.mutationMode := by
  unfold executeSQLMode renderStatement
  rw [show ("WITH " ++ c ++ " SELECT " ++ r).toList =
      'W' :: ("ITH " ++ c ++ " SELECT " ++ r).toList from rfl]
  rw [startsSelectChars_cons_ne 'W' _ (by decide) (by decide)]
  rfl

theorem executeSQLMode_insertStmt (r : String) :
    executeSQLMode (renderStatement (RawStatement.insertStmt r)) =
      ExecMode.mutationMode := by
  unfold executeSQLMode renderStatement
  rw [show ("INSERT INTO " ++ r).toList =
      'I' :: ("NSERT INTO ".toList ++ r.toList) from rfl]
  rw [startsSelectChars_cons_ne 'I' _ (by decide) (by decide)]
  rfl

theorem executeSQLMode_updateStmt (r : String) :
    executeSQLMode (renderStatement (RawStatement.updateStmt r)) =
      ExecMode.mutationMode := by
  unfold executeSQLMode renderStatement
  rw [show ("UPDATE " ++ r).toList = 'U' :: ("PDATE ".toList ++ r.toList) from rfl]
  rw [startsSelectChars_cons_ne 'U' _ (by decide) (by decide)]
  rfl

theorem executeSQLMode_deleteStmt (r : String) :
    executeSQLMode (renderStatement (RawStatement.deleteStmt r)) =
      ExecMode.mutationMode := by
  unfold executeSQLMode renderStatement
  rw [show ("DELETE FROM " ++ r).toList =
      'D' :: ("ELETE FROM ".toList ++ r.toList) from rfl]
  rw [startsSelectChars_cons_ne 'D' _ (by decide) (by decide)]
  rfl

/-- Claim C8, counterexample: a read statement written with a leading
WITH clause is routed to mutation-style execution, so routing is not
exactly by readness. -/
theorem rawquery_routing_counterexample :
    statementIsRead (RawStatement.withSelectStmt "t AS (SELECT 1)" "* FROM t") = true ∧
    executeSQLMode (renderStatement
        (RawStatement.withSelectStmt "t AS (SELECT 1)" "* FROM t")) =
      ExecMode.mutationMode ∧
    executeSQLMode "SELECT 1" = ExecMode.listMode :=
  ⟨rfl, by decide, by decide⟩

/-- Claim C8, amended: rawQuery routes a statement to list-style
execution exactly when its trimmed uppercased text starts with SELECT;
every statement routed to list-style is a read, every SELECT statement is
routed to list-style, but a read carrying a leading WITH clause is routed
to mutation-style execution. -/
theorem rawquery_routing_amended (s : RawStatement) :
    (executeSQLMode (renderStatement s) = ExecMode.listMode →
        statementIsRead s = true) ∧
    (∀ r : String,
        executeSQLMode (renderStatement (RawStatement.selectStmt r)) =
          ExecMode.listMode) ∧
    (∀ c r : String,
        executeSQLMode (renderStatement (RawStatement.withSelectStmt c r)) =
            ExecMode.mutationMode ∧
        statementIsRead (RawStatement.withSelectStmt c r) = true) := by
  refine ⟨?_, executeSQLMode_selectStmt,
    fun c r => ⟨executeSQLMode_withSelectStmt c r, rfl⟩⟩
  intro hmode
  cases s with
  | selectStmt r => rfl
  | withSelectStmt c r =>
    rw [executeSQLMode_withSelectStmt] at hmode
    exact absurd hmode (by decide)
  | insertStmt r =>
    rw [executeSQLMode_insertStmt] at hmode
    exact absurd hmode (by decide)
  | updateStmt r =>
    rw [executeSQLMode_updateStmt] at hmode
    exact absurd hmode (by decide)
  | deleteStmt r =>
    rw [executeSQLMode_deleteStmt] at hmode
    exact absurd hmode (by decide)

/-- Witness for the amended C8 at a concrete SELECT statement. -/
theorem rawquery_routing_amended_witness :
    statementIsRead (RawStatement.selectStmt "1") = true :=
  (rawquery_routing_amended (RawStatement.selectStmt "1")).1 (by decide)

end MiniBase
